import Mathlib

/-!
# Resource adapters: compute snapshot CRUD and the role-binding destroy check

A shallow embedding of `resource_compute_snapshot.go` (package `google`) and of
`testAccCheckKubernetesRoleBindingDestroy` (package `kubernetes`).

* `*schema.ResourceData` becomes the record `ResourceData`, passed explicitly.
* The vendor client and the helpers that live outside the two files are fields
  of `Config`; every remote call receives the events issued so far, so that two
  calls with the same arguments may answer differently.
* Every remote request, every operation wait and every change of partial mode is
  appended to an event list, in program order.
* A Go `error` is a `GoError`; `nil` is `none`.
* The `log.Printf` lines change neither the resource data nor the requests and are
  left out.
-/

namespace ComputeSnapshot

/-! ## Errors -/

/-- A Go error value: either a `*googleapi.Error` with its HTTP code, or any other
error. `text` is what the method `Error()` renders. -/
inductive GoError where
  | googleapi (code : Int) (text : String)
  | errorString (text : String)
deriving DecidableEq, Repr

/-- The method `Error()`. -/
def GoError.Error : GoError → String
  | .googleapi _ text => text
  | .errorString text => text

/-- The test `gerr, ok := err.(*googleapi.Error); ok && gerr.Code == 404`. -/
def GoError.is404 : GoError → Bool
  | .googleapi code _ => code == 404
  | .errorString _ => false

/-- The call `fmt.Errorf(context + "%s", err)`: a fresh error whose text is the
context followed by the text of `err`. -/
def Errorf (context : String) (err : GoError) : GoError :=
  .errorString (context ++ err.Error)

/-! ## Vendor API objects -/

/-- The type `compute.CustomerEncryptionKey`. -/
structure CustomerEncryptionKey where
  RawKey : String := ""
  Sha256 : String := ""
deriving DecidableEq, Repr

/-- The fields of `compute.Snapshot` the resource touches. A nil pointer is `none`. -/
structure Snapshot where
  Name : String := ""
  SelfLink : String := ""
  SourceDisk : String := ""
  Labels : List (String × String) := []
  LabelFingerprint : String := ""
  SnapshotEncryptionKey : Option CustomerEncryptionKey := none
  SourceDiskEncryptionKey : Option CustomerEncryptionKey := none
deriving DecidableEq, Repr

/-- The type `compute.GlobalSetLabelsRequest`. -/
structure GlobalSetLabelsRequest where
  Labels : List (String × String)
  LabelFingerprint : String
deriving DecidableEq, Repr

/-- A long-running `compute.Operation`, identified by its name. -/
structure Operation where
  Name : String
deriving DecidableEq, Repr

/-! ## Events -/

/-- What the resource functions do to the outside: vendor requests, operation
waits, and the partial-mode calls on the resource data. -/
inductive Event where
  | CreateSnapshot (project zone disk : String) (snapshot : Snapshot)
  | Get (project id : String)
  | Delete (project id : String)
  | SetLabels (project id : String) (req : GlobalSetLabelsRequest)
  | OperationWait (op : Operation) (project activity : String)
  | Partial (enabled : Bool)
  | SetPartial (key : String)
deriving DecidableEq, Repr

/-- True on `SetLabels` requests. -/
def Event.isSetLabels : Event → Bool
  | .SetLabels _ _ _ => true
  | _ => false

/-- True on operation waits. -/
def Event.isOperationWait : Event → Bool
  | .OperationWait _ _ _ => true
  | _ => false

/-! ## The schema table -/

/-- The schema value types used by the table. -/
inductive ValueType where
  | TypeString
  | TypeMap
deriving DecidableEq, Repr

/-- The flags of a `schema.Schema` entry. -/
structure Schema where
  Type_ : ValueType
  Required : Bool := false
  Optional : Bool := false
  Computed : Bool := false
  ForceNew : Bool := false
  Sensitive : Bool := false
deriving DecidableEq, Repr

/-- The `Schema` map of `resourceComputeSnapshot`, in source order. -/
def resourceComputeSnapshot : List (String × Schema) :=
  [ ("name", { Type_ := .TypeString, Required := true, ForceNew := true }),
    ("zone", { Type_ := .TypeString, Required := true, ForceNew := true }),
    ("snapshot_encryption_key_raw",
      { Type_ := .TypeString, Optional := true, ForceNew := true, Sensitive := true }),
    ("snapshot_encryption_key_sha256", { Type_ := .TypeString, Computed := true }),
    ("source_disk_encryption_key_raw",
      { Type_ := .TypeString, Optional := true, ForceNew := true, Sensitive := true }),
    ("source_disk_encryption_key_sha256", { Type_ := .TypeString, Computed := true }),
    ("source_disk", { Type_ := .TypeString, Required := true, ForceNew := true }),
    ("source_disk_link", { Type_ := .TypeString, Computed := true }),
    ("project", { Type_ := .TypeString, Optional := true, ForceNew := true }),
    ("self_link", { Type_ := .TypeString, Computed := true }),
    ("labels", { Type_ := .TypeMap, Optional := true }),
    ("label_fingerprint", { Type_ := .TypeString, Computed := true }) ]

/-! ## Resource data -/

/-- A field value: a string, or a map of strings (the `labels` field). -/
inductive Value where
  | str (s : String)
  | strMap (m : List (String × String))
deriving DecidableEq, Repr

/-- The local state behind a `*schema.ResourceData`: the cached identifier, the
field values (latest write first), and the keys whose planned value differs from
the prior state. -/
structure ResourceData where
  id : String
  fields : List (String × Value)
  changed : List String
deriving DecidableEq, Repr

/-- The zero value of a key, by its schema type. -/
def zeroValue (key : String) : Value :=
  match resourceComputeSnapshot.lookup key with
  | some s => if s.Type_ = .TypeMap then .strMap [] else .str ""
  | none => .str ""

/-- The method `d.Id()`. -/
@[reducible]
def ResourceData.Id (d : ResourceData) : String := d.id

/-- The method `d.SetId(v)`. -/
def ResourceData.SetId (d : ResourceData) (v : String) : ResourceData :=
  { d with id := v }

/-- The method `d.Get(key)`: the stored value, or the zero value of the key. -/
def ResourceData.Get (d : ResourceData) (key : String) : Value :=
  (d.fields.lookup key).getD (zeroValue key)

/-- The method `d.Set(key, value)`. -/
def ResourceData.Set (d : ResourceData) (key : String) (value : Value) : ResourceData :=
  { d with fields := (key, value) :: d.fields }

/-- The method `d.HasChange(key)`. -/
def ResourceData.HasChange (d : ResourceData) (key : String) : Bool :=
  d.changed.contains key

/-- The type assertion `.(string)` on a value read from a string-typed key. -/
def Value.string : Value → String
  | .str s => s
  | .strMap _ => ""

/-- The method `d.GetOk(key)` on a string-typed key: the value, and whether it is
set to something other than the zero value. -/
def ResourceData.GetOk (d : ResourceData) (key : String) : Value × Bool :=
  (d.Get key, decide ((d.Get key).string ≠ ""))

/-- Modelled from the spec: expandLabels is defined outside the given sources; step
(1) of section 4 maps configuration fields to the API request object, here the
configured `labels` map read as a map of strings. -/
def expandLabels (d : ResourceData) : List (String × String) :=
  match d.Get "labels" with
  | .strMap m => m
  | .str _ => []

/-- Modelled from the spec: handleNotFoundError is defined outside the given
sources. Section 7: a 404 on read is treated as resource gone, clearing the local
identifier rather than failing; all other errors are fatal to the operation and
surfaced to the caller unchanged. -/
def handleNotFoundError (err : GoError) (d : ResourceData) (_resource : String) :
    Option GoError × ResourceData :=
  if err.is404 then (none, d.SetId "") else (some err, d)

/-! ## The environment -/

/-- The value `meta.(*Config)`: the project lookup and the compute client. Each
remote call sees the events issued before it. `getProject` and
`computeOperationWait` are helpers from outside the given sources, taken as
parameters. -/
structure Config where
  getProject : ResourceData → Except GoError String
  DisksCreateSnapshot :
    List Event → String → String → String → Snapshot → Except GoError Operation
  SnapshotsGet : List Event → String → String → Except GoError Snapshot
  SnapshotsDelete : List Event → String → String → Except GoError Operation
  SnapshotsSetLabels :
    List Event → String → String → GlobalSetLabelsRequest → Except GoError Operation
  computeOperationWait : List Event → Operation → String → String → Option GoError

/-- What a resource function leaves behind: the returned error, the resource data
and the events so far. -/
structure Outcome where
  err : Option GoError
  d : ResourceData
  trace : List Event
deriving DecidableEq, Repr

/-- The result of `resourceComputeSnapshotExists`: the boolean and the rest. -/
structure ExistsOutcome where
  exists_ : Bool
  err : Option GoError
  d : ResourceData
  trace : List Event
deriving DecidableEq, Repr

/-! ## The resource functions -/

/-- The function `updateLabels`: one `SetLabels` request, then the wait on its
operation. Returns the error and the events so far. -/
def updateLabels (client : Config) (project resourceId : String)
    (labels : List (String × String)) (labelFingerprint : String) (t : List Event) :
    Option GoError × List Event :=
  let setLabelsReq : GlobalSetLabelsRequest :=
    { Labels := labels, LabelFingerprint := labelFingerprint }
  let t1 := t ++ [Event.SetLabels project resourceId setLabelsReq]
  match client.SnapshotsSetLabels t project resourceId setLabelsReq with
  | .error err => (some err, t1)
  | .ok op =>
    (client.computeOperationWait t1 op project "Setting labels on snapshot",
      t1 ++ [Event.OperationWait op project "Setting labels on snapshot"])

/-- The function `resourceComputeSnapshotRead`. -/
def resourceComputeSnapshotRead (config : Config) (d : ResourceData) (t : List Event) :
    Outcome :=
  match config.getProject d with
  | .error err => ⟨some err, d, t⟩
  | .ok project =>
    let t1 := t ++ [Event.Get project d.Id]
    match config.SnapshotsGet t project d.Id with
    | .error err =>
      let r := handleNotFoundError err d ("Snapshot " ++ (d.Get "name").string.quote)
      ⟨r.1, r.2, t1⟩
    | .ok snapshot =>
      let d1 := d.Set "self_link" (.str snapshot.SelfLink)
      let d2 := d1.Set "source_disk_link" (.str snapshot.SourceDisk)
      let d3 := d2.Set "name" (.str snapshot.Name)
      let d4 :=
        match snapshot.SnapshotEncryptionKey with
        | some key =>
          if key.Sha256 ≠ "" then d3.Set "snapshot_encryption_key_sha256" (.str key.Sha256)
          else d3
        | none => d3
      let d5 :=
        match snapshot.SourceDiskEncryptionKey with
        | some key =>
          if key.Sha256 ≠ "" then
            d4.Set "source_disk_encryption_key_sha256" (.str key.Sha256)
          else d4
        | none => d4
      let d6 := d5.Set "labels" (.strMap snapshot.Labels)
      let d7 := d6.Set "label_fingerprint" (.str snapshot.LabelFingerprint)
      ⟨none, d7, t1⟩

/-- The snapshot parameter built by `resourceComputeSnapshotCreate`. -/
def buildSnapshot (d : ResourceData) : Snapshot :=
  let snapshot : Snapshot := { Name := (d.Get "name").string }
  let snapshot1 :=
    if (d.GetOk "snapshot_encryption_key_raw").2 then
      { snapshot with
        SnapshotEncryptionKey :=
          some { RawKey := (d.GetOk "snapshot_encryption_key_raw").1.string } }
    else snapshot
  if (d.GetOk "source_disk_encryption_key_raw").2 then
    { snapshot1 with
      SourceDiskEncryptionKey :=
        some { RawKey := (d.GetOk "source_disk_encryption_key_raw").1.string } }
  else snapshot1

/-- The function `resourceComputeSnapshotCreate`. -/
def resourceComputeSnapshotCreate (config : Config) (d : ResourceData) (t : List Event) :
    Outcome :=
  match config.getProject d with
  | .error err => ⟨some err, d, t⟩
  | .ok project =>
    let snapshot := buildSnapshot d
    let source_disk := (d.Get "source_disk").string
    let zone := (d.Get "zone").string
    let t1 := t ++ [Event.CreateSnapshot project zone source_disk snapshot]
    match config.DisksCreateSnapshot t project zone source_disk snapshot with
    | .error err => ⟨some (Errorf "Error creating snapshot: " err), d, t1⟩
    | .ok op =>
      let d1 := d.SetId snapshot.Name
      let t2 := t1 ++ [Event.OperationWait op project "Creating Snapshot"]
      match config.computeOperationWait t1 op project "Creating Snapshot" with
      | some err => ⟨some err, d1, t2⟩
      | none =>
        let labels := expandLabels d1
        if labels.length > 0 then
          let t3 := t2 ++ [Event.Get project d1.Id]
          match config.SnapshotsGet t2 project d1.Id with
          | .error err =>
            ⟨some (Errorf "Eror when reading snapshot for label update: " err), d1, t3⟩
          | .ok apiSnapshot =>
            match updateLabels config project d1.Id labels apiSnapshot.LabelFingerprint t3 with
            | (some err, t4) => ⟨some err, d1, t4⟩
            | (none, t4) => resourceComputeSnapshotRead config d1 t4
        else resourceComputeSnapshotRead config d1 t2

/-- The function `resourceComputeSnapshotUpdate`. -/
def resourceComputeSnapshotUpdate (config : Config) (d : ResourceData) (t : List Event) :
    Outcome :=
  match config.getProject d with
  | .error err => ⟨some err, d, t⟩
  | .ok project =>
    let t1 := t ++ [Event.Partial true]
    if d.HasChange "labels" then
      match updateLabels config project d.Id (expandLabels d)
          (d.Get "label_fingerprint").string t1 with
      | (some err, t2) => ⟨some err, d, t2⟩
      | (none, t2) =>
        let t3 := t2 ++ [Event.SetPartial "labels"]
        resourceComputeSnapshotRead config d (t3 ++ [Event.Partial false])
    else resourceComputeSnapshotRead config d (t1 ++ [Event.Partial false])

/-- The function `resourceComputeSnapshotDelete`. -/
def resourceComputeSnapshotDelete (config : Config) (d : ResourceData) (t : List Event) :
    Outcome :=
  match config.getProject d with
  | .error err => ⟨some err, d, t⟩
  | .ok project =>
    let t1 := t ++ [Event.Delete project d.Id]
    match config.SnapshotsDelete t project d.Id with
    | .error err =>
      if err.is404 then ⟨none, d.SetId "", t1⟩
      else ⟨some (Errorf "Error deleting snapshot: " err), d, t1⟩
    | .ok op =>
      let t2 := t1 ++ [Event.OperationWait op project "Deleting Snapshot"]
      match config.computeOperationWait t1 op project "Deleting Snapshot" with
      | some err => ⟨some err, d, t2⟩
      | none => ⟨none, d.SetId "", t2⟩

/-- The function `resourceComputeSnapshotExists`. -/
def resourceComputeSnapshotExists (config : Config) (d : ResourceData) (t : List Event) :
    ExistsOutcome :=
  match config.getProject d with
  | .error err => ⟨false, some err, d, t⟩
  | .ok project =>
    let t1 := t ++ [Event.Get project d.Id]
    match config.SnapshotsGet t project d.Id with
    | .error err =>
      if err.is404 then ⟨false, some err, d.SetId "", t1⟩
      else ⟨true, some err, d, t1⟩
    | .ok _ => ⟨true, none, d, t1⟩

end ComputeSnapshot

/-! ## The role-binding destroy check -/

namespace KubernetesRoleBinding

open ComputeSnapshot (GoError)

/-- One entry of `s.RootModule().Resources`: `rs.Type` and `rs.Primary.ID`. -/
structure ResourceState where
  type : String
  ID : String
deriving DecidableEq, Repr

/-- The part of `api.RoleBinding` the check reads: `resp.Name`. -/
structure RoleBinding where
  Name : String
deriving DecidableEq, Repr

/-- The function `testAccCheckKubernetesRoleBindingDestroy`, over the resources of
the root module in iteration order. `idParts` comes from outside the given
sources and `get ns name` is `conn.RbacV1().RoleBindings(ns).Get(name, ...)`. -/
def testAccCheckKubernetesRoleBindingDestroy
    (idParts : String → Except GoError (String × String))
    (get : String → String → Except GoError RoleBinding) :
    List ResourceState → Option GoError
  | [] => none
  | rs :: rest =>
    if rs.type ≠ "kubernetes_role_binding" then
      testAccCheckKubernetesRoleBindingDestroy idParts get rest
    else
      match idParts rs.ID with
      | .error err => some err
      | .ok (ns, name) =>
        match get ns name with
        | .ok resp =>
          if resp.Name = rs.ID then
            some (.errorString ("Cluster Role still exists: " ++ rs.ID))
          else testAccCheckKubernetesRoleBindingDestroy idParts get rest
        | .error _ => testAccCheckKubernetesRoleBindingDestroy idParts get rest

end KubernetesRoleBinding

/-! ## Sample inputs -/

namespace ComputeSnapshot

/-- A resource that has not been created yet: no identifier, no labels. -/
def newData : ResourceData :=
  { id := "",
    fields :=
      [("name", .str "snap-1"), ("zone", .str "us-central1-a"),
        ("source_disk", .str "disk-1")],
    changed := [] }

/-- A resource about to be created with one label. -/
def newLabelledData : ResourceData :=
  { id := "",
    fields :=
      [("name", .str "snap-1"), ("zone", .str "us-central1-a"),
        ("source_disk", .str "disk-1"), ("labels", .strMap [("env", "prod")])],
    changed := [] }

/-- An existing resource whose labels are planned to change. -/
def existingData : ResourceData :=
  { id := "snap-1",
    fields :=
      [("name", .str "snap-1"), ("zone", .str "us-central1-a"),
        ("source_disk", .str "disk-1"), ("labels", .strMap [("env", "prod")]),
        ("label_fingerprint", .str "fp-0")],
    changed := ["labels"] }

/-- The remote snapshot the sample services answer with. -/
def remoteSnapshot : Snapshot :=
  { Name := "snap-1",
    SelfLink := "https://compute/snapshots/snap-1",
    SourceDisk := "https://compute/disks/disk-1",
    Labels := [("env", "prod")],
    LabelFingerprint := "fp-1",
    SnapshotEncryptionKey := some { Sha256 := "abc" },
    SourceDiskEncryptionKey := some { Sha256 := "" } }

/-- A googleapi 404. -/
def notFound : GoError := .googleapi 404 "googleapi: Error 404: not found"

/-- A googleapi 500. -/
def serverError : GoError := .googleapi 500 "googleapi: Error 500: backend error"

/-- A service on which every request succeeds. -/
def healthyConfig : Config :=
  { getProject := fun _ => .ok "proj",
    DisksCreateSnapshot := fun _ _ _ _ _ => .ok ⟨"op-create"⟩,
    SnapshotsGet := fun _ _ _ => .ok remoteSnapshot,
    SnapshotsDelete := fun _ _ _ => .ok ⟨"op-delete"⟩,
    SnapshotsSetLabels := fun _ _ _ _ => .ok ⟨"op-labels"⟩,
    computeOperationWait := fun _ _ _ _ => none }

/-- A service on which the snapshot is gone: reads and deletes answer 404. -/
def goneConfig : Config :=
  { healthyConfig with
    SnapshotsGet := fun _ _ _ => .error notFound,
    SnapshotsDelete := fun _ _ _ => .error notFound }

/-- A service on which every request answers 500. -/
def brokenConfig : Config :=
  { healthyConfig with
    DisksCreateSnapshot := fun _ _ _ _ _ => .error serverError,
    SnapshotsGet := fun _ _ _ => .error serverError,
    SnapshotsDelete := fun _ _ _ => .error serverError,
    SnapshotsSetLabels := fun _ _ _ _ => .error serverError }

/-- A service on which only reads fail, with a 500. -/
def unreadableConfig : Config :=
  { healthyConfig with SnapshotsGet := fun _ _ _ => .error serverError }

/-- A configuration without a usable project. -/
def noProjectConfig : Config :=
  { healthyConfig with
    getProject := fun _ => .error (.errorString "project: required field is not set") }

end ComputeSnapshot

namespace KubernetesRoleBinding

open ComputeSnapshot (GoError)

/-- The pieces of a character list between slashes, as `strings.Split(id, "/")`. -/
def splitSlash : List Char → List (List Char)
  | [] => [[]]
  | c :: cs =>
    if c = '/' then [] :: splitSlash cs
    else
      match splitSlash cs with
      | [] => [[c]]
      | piece :: pieces => (c :: piece) :: pieces

/-- A sample `idParts`: an identifier `namespace/name` is split at its slash, and
any other shape is an error. -/
def sampleIdParts (id : String) : Except GoError (String × String) :=
  match splitSlash id.toList with
  | [ns, name] => .ok (String.mk ns, String.mk name)
  | _ => .error (.errorString ("Unexpected ID format: " ++ id))

/-- A sample cluster in which the role binding `tf-acc-test` of namespace `default`
still exists and nothing else does. -/
def sampleCluster (ns name : String) : Except GoError RoleBinding :=
  if ns = "default" ∧ name = "tf-acc-test" then .ok ⟨name⟩
  else .error (.errorString "rolebindings not found")

/-- A state holding one role binding, the one still in the sample cluster. -/
def sampleState : List ResourceState :=
  [⟨"kubernetes_role", "tf-acc-role"⟩, ⟨"kubernetes_role_binding", "default/tf-acc-test"⟩]

end KubernetesRoleBinding

/-! ## Theorems: delete and exists -/

namespace ComputeSnapshot

/-- A context in front of a text is never that text. -/
theorem errorf_ne (context : String) (hc : context ≠ "") (e : GoError) :
    Errorf context e ≠ e := by
  cases e with
  | googleapi code text => simp [Errorf]
  | errorString text =>
    intro h
    simp only [Errorf, GoError.Error, GoError.errorString.injEq] at h
    have hl := congrArg String.length h
    rw [String.length_append] at hl
    have h0 : context.length = 0 := by omega
    apply hc
    obtain ⟨data⟩ := context
    have hd : data = [] := List.length_eq_zero.mp h0
    subst hd
    rfl

/-- C1: when `Snapshots.Delete` answers with a googleapi 404, the delete returns no
error, the identifier is empty afterwards, and the only event issued is the delete
request itself: no operation is waited on. -/
theorem delete_404_clears_id (config : Config) (d : ResourceData) (t : List Event)
    (project text : String)
    (hp : config.getProject d = .ok project)
    (hd : config.SnapshotsDelete t project d.Id = .error (.googleapi 404 text)) :
    (resourceComputeSnapshotDelete config d t).err = none ∧
      (resourceComputeSnapshotDelete config d t).d.Id = "" ∧
      (resourceComputeSnapshotDelete config d t).trace = t ++ [Event.Delete project d.Id] ∧
      ∀ ev ∈ (resourceComputeSnapshotDelete config d t).trace.drop t.length,
        ev.isOperationWait = false := by
  unfold resourceComputeSnapshotDelete
  simp only [hp, hd]
  simp [GoError.is404, ResourceData.SetId, ResourceData.Id, Event.isOperationWait]

/-- Witness for C1 on the service where the snapshot is gone. -/
theorem delete_404_clears_id_witness :
    goneConfig.getProject existingData = .ok "proj" ∧
      (resourceComputeSnapshotDelete goneConfig existingData []).err = none ∧
      (resourceComputeSnapshotDelete goneConfig existingData []).d.Id = "" :=
  ⟨rfl,
    (delete_404_clears_id goneConfig existingData [] "proj"
      "googleapi: Error 404: not found" rfl rfl).1,
    (delete_404_clears_id goneConfig existingData [] "proj"
      "googleapi: Error 404: not found" rfl rfl).2.1⟩

/-- C2, the code at the failing input: on a googleapi 404 from `Snapshots.Get` the
exists check clears the identifier and reports false, yet hands the 404 back as
its error. -/
theorem exists_404_returns_error :
    goneConfig.SnapshotsGet [] "proj" existingData.Id = .error notFound ∧
      (resourceComputeSnapshotExists goneConfig existingData []).exists_ = false ∧
      (resourceComputeSnapshotExists goneConfig existingData []).d.Id = "" ∧
      (resourceComputeSnapshotExists goneConfig existingData []).err = some notFound :=
  ⟨rfl, rfl, rfl, rfl⟩

/-- C9: starting from a non-empty identifier, the delete returns nil exactly when
the identifier is empty afterwards, and whenever it returns an error the identifier
is the one it started with. -/
theorem delete_nil_iff_id_cleared (config : Config) (d : ResourceData) (t : List Event)
    (hid : d.Id ≠ "") :
    ((resourceComputeSnapshotDelete config d t).err = none ↔
        (resourceComputeSnapshotDelete config d t).d.Id = "") ∧
      ((resourceComputeSnapshotDelete config d t).err ≠ none →
        (resourceComputeSnapshotDelete config d t).d.Id = d.Id) := by
  rcases h1 : config.getProject d with err | project
  · simp [resourceComputeSnapshotDelete, h1, hid]
  · rcases h2 : config.SnapshotsDelete t project d.Id with err | op
    · by_cases h : err.is404 = true <;>
        simp [resourceComputeSnapshotDelete, h1, h2, h, hid, ResourceData.SetId]
    · rcases h3 : config.computeOperationWait (t ++ [Event.Delete project d.Id]) op project
          "Deleting Snapshot" with _ | err <;>
        simp [resourceComputeSnapshotDelete, h1, h2, h3, hid, ResourceData.SetId]

/-- Witness for C9 on the healthy service. -/
theorem delete_nil_iff_id_cleared_witness :
    existingData.Id ≠ "" ∧
      ((resourceComputeSnapshotDelete healthyConfig existingData []).err = none ↔
        (resourceComputeSnapshotDelete healthyConfig existingData []).d.Id = "") :=
  ⟨by decide, (delete_nil_iff_id_cleared healthyConfig existingData [] (by decide)).1⟩

end ComputeSnapshot

/-! ## Theorems: how vendor errors reach the caller -/

namespace ComputeSnapshot

/-- C3 as stated fails: a 500 from `Snapshots.Delete` is not a googleapi 404, yet
the delete hands back a different error, the 500 wrapped in a context. -/
theorem delete_error_is_wrapped :
    brokenConfig.SnapshotsDelete [] "proj" existingData.Id = .error serverError ∧
      serverError.is404 = false ∧
      (resourceComputeSnapshotDelete brokenConfig existingData []).err =
        some (.errorString "Error deleting snapshot: googleapi: Error 500: backend error") ∧
      (resourceComputeSnapshotDelete brokenConfig existingData []).err ≠ some serverError :=
  ⟨rfl, rfl, rfl, by decide⟩

/-- C3 amended: a vendor error makes the operation fail. The exists check returns
a non-404 error from `Snapshots.Get` itself; the delete returns a non-404 error from
`Snapshots.Delete`, and the create returns any error from `Disks.CreateSnapshot`, as
a new error whose text is a context followed by the text of the vendor error. In
all three the resource data are left as they were. -/
theorem vendor_error_fails_operation (config : Config) (d : ResourceData) (t : List Event)
    (project : String) (e : GoError)
    (hp : config.getProject d = .ok project) :
    (config.SnapshotsDelete t project d.Id = .error e → e.is404 = false →
        (resourceComputeSnapshotDelete config d t).err =
            some (Errorf "Error deleting snapshot: " e) ∧
          Errorf "Error deleting snapshot: " e ≠ e ∧
          (resourceComputeSnapshotDelete config d t).d = d) ∧
      (config.DisksCreateSnapshot t project (d.Get "zone").string
            (d.Get "source_disk").string (buildSnapshot d) = .error e →
        (resourceComputeSnapshotCreate config d t).err =
            some (Errorf "Error creating snapshot: " e) ∧
          Errorf "Error creating snapshot: " e ≠ e ∧
          (resourceComputeSnapshotCreate config d t).d = d) ∧
      (config.SnapshotsGet t project d.Id = .error e → e.is404 = false →
        (resourceComputeSnapshotExists config d t).err = some e ∧
          (resourceComputeSnapshotExists config d t).exists_ = true ∧
          (resourceComputeSnapshotExists config d t).d = d) := by
  refine ⟨?_, ?_, ?_⟩
  · intro hd h404
    refine ⟨?_, errorf_ne _ (by decide) e, ?_⟩ <;>
      simp [resourceComputeSnapshotDelete, hp, hd, h404]
  · intro hc
    refine ⟨?_, errorf_ne _ (by decide) e, ?_⟩ <;>
      simp [resourceComputeSnapshotCreate, hp, hc]
  · intro hg h404
    simp [resourceComputeSnapshotExists, hp, hg, h404]

/-- Witness for C3 amended on the service where every request answers 500. -/
theorem vendor_error_fails_operation_witness :
    brokenConfig.getProject existingData = .ok "proj" ∧
      (resourceComputeSnapshotDelete brokenConfig existingData []).err =
        some (Errorf "Error deleting snapshot: " serverError) ∧
      (resourceComputeSnapshotCreate brokenConfig existingData []).err =
        some (Errorf "Error creating snapshot: " serverError) ∧
      (resourceComputeSnapshotExists brokenConfig existingData []).err = some serverError :=
  ⟨rfl,
    ((vendor_error_fails_operation brokenConfig existingData [] "proj" serverError rfl).1
      rfl rfl).1,
    ((vendor_error_fails_operation brokenConfig existingData [] "proj" serverError rfl).2.1
      rfl).1,
    ((vendor_error_fails_operation brokenConfig existingData [] "proj" serverError rfl).2.2
      rfl rfl).1⟩

end ComputeSnapshot

/-! ## Theorems: read -/

namespace ComputeSnapshot

/-- Reading a key after a write: the written value on that key, the old value on
every other key. -/
theorem get_set (d : ResourceData) (key key2 : String) (value : Value) :
    (d.Set key value).Get key2 = if key2 = key then value else d.Get key2 := by
  unfold ResourceData.Set ResourceData.Get
  by_cases h : key2 = key
  · subst h
    simp [List.lookup]
  · have hb : (key2 == key) = false := by simpa using h
    simp [List.lookup, hb, h]

/-- A write leaves the identifier alone. -/
theorem id_set (d : ResourceData) (key : String) (value : Value) :
    (d.Set key value).Id = d.Id := rfl

/-- A write leaves the change set alone. -/
theorem changed_set (d : ResourceData) (key : String) (value : Value) :
    (d.Set key value).changed = d.changed := rfl

/-- C7: after a successful `Snapshots.Get` the read returns nil and the local fields
mirror the remote snapshot: `self_link`, `source_disk_link`, `name`, `labels` and
`label_fingerprint` hold the remote values; each of the two sha256 fields holds the
remote key's Sha256 when that key is present with a non-empty Sha256 and keeps its
previous value otherwise; the identifier, the change set and every other field are
as before. -/
theorem read_maps_response (config : Config) (d : ResourceData) (t : List Event)
    (project : String) (snapshot : Snapshot)
    (hp : config.getProject d = .ok project)
    (hg : config.SnapshotsGet t project d.Id = .ok snapshot) :
    (resourceComputeSnapshotRead config d t).err = none ∧
      (resourceComputeSnapshotRead config d t).d.Get "self_link" = .str snapshot.SelfLink ∧
      (resourceComputeSnapshotRead config d t).d.Get "source_disk_link" =
        .str snapshot.SourceDisk ∧
      (resourceComputeSnapshotRead config d t).d.Get "name" = .str snapshot.Name ∧
      (resourceComputeSnapshotRead config d t).d.Get "labels" = .strMap snapshot.Labels ∧
      (resourceComputeSnapshotRead config d t).d.Get "label_fingerprint" =
        .str snapshot.LabelFingerprint ∧
      (∀ key, snapshot.SnapshotEncryptionKey = some key → key.Sha256 ≠ "" →
        (resourceComputeSnapshotRead config d t).d.Get "snapshot_encryption_key_sha256" =
          .str key.Sha256) ∧
      ((∀ key, snapshot.SnapshotEncryptionKey = some key → key.Sha256 = "") →
        (resourceComputeSnapshotRead config d t).d.Get "snapshot_encryption_key_sha256" =
          d.Get "snapshot_encryption_key_sha256") ∧
      (∀ key, snapshot.SourceDiskEncryptionKey = some key → key.Sha256 ≠ "" →
        (resourceComputeSnapshotRead config d t).d.Get "source_disk_encryption_key_sha256" =
          .str key.Sha256) ∧
      ((∀ key, snapshot.SourceDiskEncryptionKey = some key → key.Sha256 = "") →
        (resourceComputeSnapshotRead config d t).d.Get "source_disk_encryption_key_sha256" =
          d.Get "source_disk_encryption_key_sha256") ∧
      (resourceComputeSnapshotRead config d t).d.Id = d.Id ∧
      (resourceComputeSnapshotRead config d t).d.changed = d.changed ∧
      ∀ key,
        key ∉ ["self_link", "source_disk_link", "name", "snapshot_encryption_key_sha256",
          "source_disk_encryption_key_sha256", "labels", "label_fingerprint"] →
        (resourceComputeSnapshotRead config d t).d.Get key = d.Get key := by
  unfold resourceComputeSnapshotRead
  simp only [hp, hg]
  rcases hk1 : snapshot.SnapshotEncryptionKey with _ | k1 <;>
    rcases hk2 : snapshot.SourceDiskEncryptionKey with _ | k2
  · simp [get_set, id_set, changed_set]
    intro key h1 h2 h3 _ _ h6 h7
    simp [h1, h2, h3, h6, h7]
  · by_cases e2 : k2.Sha256 = ""
    · simp [get_set, id_set, changed_set, e2]
      intro key h1 h2 h3 _ _ h6 h7
      simp [h1, h2, h3, h6, h7]
    · simp [get_set, id_set, changed_set, e2]
      intro key h1 h2 h3 _ h5 h6 h7
      simp [h1, h2, h3, h5, h6, h7]
  · by_cases e1 : k1.Sha256 = ""
    · simp [get_set, id_set, changed_set, e1]
      intro key h1 h2 h3 _ _ h6 h7
      simp [h1, h2, h3, h6, h7]
    · simp [get_set, id_set, changed_set, e1]
      intro key h1 h2 h3 h4 _ h6 h7
      simp [h1, h2, h3, h4, h6, h7]
  · by_cases e1 : k1.Sha256 = "" <;> by_cases e2 : k2.Sha256 = ""
    · simp [get_set, id_set, changed_set, e1, e2]
      intro key h1 h2 h3 _ _ h6 h7
      simp [h1, h2, h3, h6, h7]
    · simp [get_set, id_set, changed_set, e1, e2]
      intro key h1 h2 h3 _ h5 h6 h7
      simp [h1, h2, h3, h5, h6, h7]
    · simp [get_set, id_set, changed_set, e1, e2]
      intro key h1 h2 h3 h4 _ h6 h7
      simp [h1, h2, h3, h4, h6, h7]
    · simp [get_set, id_set, changed_set, e1, e2]
      intro key h1 h2 h3 h4 h5 h6 h7
      simp [h1, h2, h3, h4, h5, h6, h7]

/-- Witness for C7 on the healthy service: the snapshot key has a Sha256, the source
disk key has an empty one. -/
theorem read_maps_response_witness :
    healthyConfig.getProject existingData = .ok "proj" ∧
      healthyConfig.SnapshotsGet [] "proj" existingData.Id = .ok remoteSnapshot ∧
      (resourceComputeSnapshotRead healthyConfig existingData []).d.Get "self_link" =
        .str "https://compute/snapshots/snap-1" ∧
      (resourceComputeSnapshotRead healthyConfig existingData []).d.Get "label_fingerprint" =
        .str "fp-1" :=
  ⟨rfl, rfl,
    (read_maps_response healthyConfig existingData [] "proj" remoteSnapshot rfl rfl).2.1,
    (read_maps_response healthyConfig existingData [] "proj" remoteSnapshot
      rfl rfl).2.2.2.2.2.1⟩

/-- A read whose `Snapshots.Get` succeeds keeps the identifier. -/
theorem read_ok_id (config : Config) (d : ResourceData) (t : List Event)
    (project : String) (snapshot : Snapshot)
    (hp : config.getProject d = .ok project)
    (hg : config.SnapshotsGet t project d.Id = .ok snapshot) :
    (resourceComputeSnapshotRead config d t).d.Id = d.Id := by
  unfold resourceComputeSnapshotRead
  simp only [hp, hg]
  rcases snapshot.SnapshotEncryptionKey with _ | k1 <;>
    rcases snapshot.SourceDiskEncryptionKey with _ | k2 <;>
    simp only [id_set] <;>
    repeat (first | rfl | split)

/-- The read issues at most one event, a `Snapshots.Get` on the identifier. -/
theorem read_trace (config : Config) (d : ResourceData) (t : List Event) :
    (resourceComputeSnapshotRead config d t).trace = t ∨
      ∃ p, (resourceComputeSnapshotRead config d t).trace = t ++ [Event.Get p d.Id] := by
  rcases h1 : config.getProject d with err | project
  · left
    simp [resourceComputeSnapshotRead, h1]
  · right
    refine ⟨project, ?_⟩
    rcases h2 : config.SnapshotsGet t project d.Id with err | snapshot <;>
      simp [resourceComputeSnapshotRead, h1, h2]

/-- The read keeps the identifier, except that a 404 from its `Snapshots.Get` clears
it and yields nil. Whenever the read returns an error the identifier is kept. -/
theorem read_id (config : Config) (d : ResourceData) (t : List Event) :
    ((resourceComputeSnapshotRead config d t).err ≠ none →
        (resourceComputeSnapshotRead config d t).d.Id = d.Id) ∧
      ((resourceComputeSnapshotRead config d t).d.Id = d.Id ∨
        ((resourceComputeSnapshotRead config d t).d.Id = "" ∧
          (resourceComputeSnapshotRead config d t).err = none ∧
          ∃ p e, config.SnapshotsGet t p d.Id = .error e ∧ e.is404 = true ∧
            (resourceComputeSnapshotRead config d t).trace = t ++ [Event.Get p d.Id])) := by
  rcases h1 : config.getProject d with err | project
  · simp [resourceComputeSnapshotRead, h1]
  · rcases h2 : config.SnapshotsGet t project d.Id with err | snapshot
    · by_cases h : err.is404 = true
      · refine ⟨?_, Or.inr ⟨?_, ?_, project, err, h2, h, ?_⟩⟩ <;>
          simp [resourceComputeSnapshotRead, h1, h2, h, handleNotFoundError,
            ResourceData.SetId]
      · simp [resourceComputeSnapshotRead, h1, h2, h, handleNotFoundError]
    · have h3 := read_ok_id config d t project snapshot h1 h2
      exact ⟨fun _ => h3, Or.inl h3⟩

end ComputeSnapshot

/-! ## Theorems: create -/

namespace ComputeSnapshot

/-- A change of identifier leaves the labels alone. -/
theorem expandLabels_setId (d : ResourceData) (v : String) :
    expandLabels (d.SetId v) = expandLabels d := rfl

/-- The identifier after `SetId`. -/
theorem id_setId (d : ResourceData) (v : String) : (d.SetId v).Id = v := rfl

/-- The snapshot parameter carries the configured name. -/
theorem buildSnapshot_name (d : ResourceData) :
    (buildSnapshot d).Name = (d.Get "name").string := by
  unfold buildSnapshot
  split <;> split <;> rfl

/-- The labels update issues one `SetLabels` request, followed by the wait on its
operation when the request is accepted. -/
theorem updateLabels_trace (client : Config) (project resourceId : String)
    (labels : List (String × String)) (labelFingerprint : String) (t : List Event) :
    ∃ rest,
      (updateLabels client project resourceId labels labelFingerprint t).2 =
          t ++ [Event.SetLabels project resourceId ⟨labels, labelFingerprint⟩] ++ rest ∧
        rest.countP Event.isSetLabels = 0 ∧
        ∀ key, Event.SetPartial key ∉ rest := by
  rcases h : client.SnapshotsSetLabels t project resourceId ⟨labels, labelFingerprint⟩
    with err | op
  · exact ⟨[], by simp [updateLabels, h]⟩
  · exact ⟨[Event.OperationWait op project "Setting labels on snapshot"],
      by simp [updateLabels, h, Event.isSetLabels]⟩

/-- The create once the request is accepted: the identifier is stored, then the
wait, the label step and the closing read follow. -/
theorem create_accepted (config : Config) (d : ResourceData) (t : List Event)
    (project : String) (op : Operation)
    (hp : config.getProject d = .ok project)
    (hc : config.DisksCreateSnapshot t project (d.Get "zone").string
      (d.Get "source_disk").string (buildSnapshot d) = .ok op) :
    resourceComputeSnapshotCreate config d t =
      match config.computeOperationWait
          (t ++ [Event.CreateSnapshot project (d.Get "zone").string
            (d.Get "source_disk").string (buildSnapshot d)]) op project
          "Creating Snapshot" with
      | some err =>
        ⟨some err, d.SetId (buildSnapshot d).Name,
          t ++ [Event.CreateSnapshot project (d.Get "zone").string
            (d.Get "source_disk").string (buildSnapshot d)] ++
            [Event.OperationWait op project "Creating Snapshot"]⟩
      | none =>
        if (expandLabels d).length > 0 then
          match config.SnapshotsGet
              (t ++ [Event.CreateSnapshot project (d.Get "zone").string
                (d.Get "source_disk").string (buildSnapshot d)] ++
                [Event.OperationWait op project "Creating Snapshot"]) project
              (buildSnapshot d).Name with
          | .error err =>
            ⟨some (Errorf "Eror when reading snapshot for label update: " err),
              d.SetId (buildSnapshot d).Name,
              t ++ [Event.CreateSnapshot project (d.Get "zone").string
                (d.Get "source_disk").string (buildSnapshot d)] ++
                [Event.OperationWait op project "Creating Snapshot"] ++
                [Event.Get project (buildSnapshot d).Name]⟩
          | .ok apiSnapshot =>
            match updateLabels config project (buildSnapshot d).Name (expandLabels d)
                apiSnapshot.LabelFingerprint
                (t ++ [Event.CreateSnapshot project (d.Get "zone").string
                  (d.Get "source_disk").string (buildSnapshot d)] ++
                  [Event.OperationWait op project "Creating Snapshot"] ++
                  [Event.Get project (buildSnapshot d).Name]) with
            | (some err, t4) => ⟨some err, d.SetId (buildSnapshot d).Name, t4⟩
            | (none, t4) =>
              resourceComputeSnapshotRead config (d.SetId (buildSnapshot d).Name) t4
        else
          resourceComputeSnapshotRead config (d.SetId (buildSnapshot d).Name)
            (t ++ [Event.CreateSnapshot project (d.Get "zone").string
              (d.Get "source_disk").string (buildSnapshot d)] ++
              [Event.OperationWait op project "Creating Snapshot"]) := by
  simp only [resourceComputeSnapshotCreate, hp, hc]
  rfl

/-- C4 as stated fails: the create request is accepted and the operation completes,
but the closing read finds the snapshot gone (404), and the create ends with an
empty identifier instead of the configured name. -/
theorem create_id_cleared_by_read :
    goneConfig.getProject newData = .ok "proj" ∧
      goneConfig.DisksCreateSnapshot [] "proj" "us-central1-a" "disk-1"
        (buildSnapshot newData) = .ok ⟨"op-create"⟩ ∧
      (newData.Get "name").string = "snap-1" ∧
      (resourceComputeSnapshotCreate goneConfig newData []).err = none ∧
      (resourceComputeSnapshotCreate goneConfig newData []).d.Id = "" :=
  ⟨rfl, rfl, rfl, rfl, rfl⟩

/-- C4 amended: if `Disks.CreateSnapshot` returns an error the resource data, the
identifier included, are left as they were. If it returns an operation, the
identifier equals the configured name whenever the create returns an error (failed
wait, failed label read, failed label update, failed closing read), and on a nil
return it equals the configured name unless the last event is the `Snapshots.Get`
of the closing read answered with a 404, in which case it is empty. -/
theorem create_stores_id (config : Config) (d : ResourceData) (t : List Event)
    (project : String)
    (hp : config.getProject d = .ok project) :
    (∀ e, config.DisksCreateSnapshot t project (d.Get "zone").string
          (d.Get "source_disk").string (buildSnapshot d) = .error e →
        (resourceComputeSnapshotCreate config d t).d = d) ∧
      (∀ op, config.DisksCreateSnapshot t project (d.Get "zone").string
          (d.Get "source_disk").string (buildSnapshot d) = .ok op →
        ((resourceComputeSnapshotCreate config d t).err ≠ none →
          (resourceComputeSnapshotCreate config d t).d.Id = (d.Get "name").string) ∧
        ((resourceComputeSnapshotCreate config d t).d.Id = (d.Get "name").string ∨
          ((resourceComputeSnapshotCreate config d t).d.Id = "" ∧
            (resourceComputeSnapshotCreate config d t).err = none ∧
            ∃ tr p e,
              config.SnapshotsGet tr p (d.Get "name").string = .error e ∧
                e.is404 = true ∧
                (resourceComputeSnapshotCreate config d t).trace =
                  tr ++ [Event.Get p (d.Get "name").string]))) := by
  have hread : ∀ tr,
      ((resourceComputeSnapshotRead config (d.SetId (buildSnapshot d).Name) tr).err ≠ none →
          (resourceComputeSnapshotRead config (d.SetId (buildSnapshot d).Name) tr).d.Id =
            (d.Get "name").string) ∧
        ((resourceComputeSnapshotRead config (d.SetId (buildSnapshot d).Name) tr).d.Id =
            (d.Get "name").string ∨
          ((resourceComputeSnapshotRead config (d.SetId (buildSnapshot d).Name) tr).d.Id = "" ∧
            (resourceComputeSnapshotRead config (d.SetId (buildSnapshot d).Name) tr).err =
              none ∧
            ∃ tr2 p e,
              config.SnapshotsGet tr2 p (d.Get "name").string = .error e ∧
                e.is404 = true ∧
                (resourceComputeSnapshotRead config (d.SetId (buildSnapshot d).Name) tr).trace =
                  tr2 ++ [Event.Get p (d.Get "name").string])) := by
    intro tr
    have h := read_id config (d.SetId (buildSnapshot d).Name) tr
    have hid : (d.SetId (buildSnapshot d).Name).Id = (d.Get "name").string :=
      buildSnapshot_name d
    rw [hid] at h
    refine ⟨h.1, ?_⟩
    rcases h.2 with h2 | ⟨h2, h3, p, e, h4, h5, h6⟩
    · exact Or.inl h2
    · exact Or.inr ⟨h2, h3, tr, p, e, h4, h5, h6⟩
  refine ⟨?_, ?_⟩
  · intro e hc
    simp [resourceComputeSnapshotCreate, hp, hc]
  · intro op hc
    rw [create_accepted config d t project op hp hc]
    split
    · simp [id_setId, buildSnapshot_name]
    · split
      · split
        · simp [id_setId, buildSnapshot_name]
        · split
          · simp [id_setId, buildSnapshot_name]
          · exact hread _
      · exact hread _

/-- Witness for C4 amended on the healthy service: the request is accepted and the
identifier is the configured name. -/
theorem create_stores_id_witness :
    healthyConfig.getProject newData = .ok "proj" ∧
      healthyConfig.DisksCreateSnapshot [] "proj" (newData.Get "zone").string
        (newData.Get "source_disk").string (buildSnapshot newData) = .ok ⟨"op-create"⟩ ∧
      ((resourceComputeSnapshotCreate healthyConfig newData []).d.Id = "snap-1" ∨
        ((resourceComputeSnapshotCreate healthyConfig newData []).d.Id = "" ∧
          (resourceComputeSnapshotCreate healthyConfig newData []).err = none ∧
          ∃ tr p e,
            healthyConfig.SnapshotsGet tr p (newData.Get "name").string = .error e ∧
              e.is404 = true ∧
              (resourceComputeSnapshotCreate healthyConfig newData []).trace =
                tr ++ [Event.Get p (newData.Get "name").string])) :=
  ⟨rfl, rfl, ((create_stores_id healthyConfig newData [] "proj" rfl).2 ⟨"op-create"⟩ rfl).2⟩

/-- C5 as stated fails: labels are configured and the create operation completes,
but the label read answers 500, and no `SetLabels` request is sent at all. -/
theorem create_label_read_fails_no_setlabels :
    unreadableConfig.DisksCreateSnapshot [] "proj" "us-central1-a" "disk-1"
        (buildSnapshot newLabelledData) = .ok ⟨"op-create"⟩ ∧
      unreadableConfig.computeOperationWait
        [Event.CreateSnapshot "proj" "us-central1-a" "disk-1" (buildSnapshot newLabelledData)]
        ⟨"op-create"⟩ "proj" "Creating Snapshot" = none ∧
      expandLabels newLabelledData = [("env", "prod")] ∧
      (resourceComputeSnapshotCreate unreadableConfig newLabelledData []).trace =
        [Event.CreateSnapshot "proj" "us-central1-a" "disk-1" (buildSnapshot newLabelledData),
          Event.OperationWait ⟨"op-create"⟩ "proj" "Creating Snapshot",
          Event.Get "proj" "snap-1"] ∧
      (resourceComputeSnapshotCreate unreadableConfig newLabelledData []).trace.countP
        Event.isSetLabels = 0 :=
  ⟨rfl, rfl, rfl, rfl, rfl⟩

/-- C5 amended: once the create operation has completed, with non-empty configured
labels a `Snapshots.Get` is issued right after the wait; if it returns a snapshot,
the next event is a `SetLabels` request carrying the configured labels and that
snapshot's LabelFingerprint, and it is the only `SetLabels` request; if it fails, the
create fails and no `SetLabels` request is sent. With empty configured labels the
create goes straight to the closing read: no `SetLabels` request and at most one
further event. -/
theorem create_label_step (config : Config) (d : ResourceData) (t : List Event)
    (project : String) (op : Operation)
    (hp : config.getProject d = .ok project)
    (hc : config.DisksCreateSnapshot t project (d.Get "zone").string
      (d.Get "source_disk").string (buildSnapshot d) = .ok op)
    (hw : config.computeOperationWait
      (t ++ [Event.CreateSnapshot project (d.Get "zone").string
        (d.Get "source_disk").string (buildSnapshot d)]) op project
      "Creating Snapshot" = none) :
    (expandLabels d ≠ [] →
        (∀ s, config.SnapshotsGet
            (t ++ [Event.CreateSnapshot project (d.Get "zone").string
              (d.Get "source_disk").string (buildSnapshot d)] ++
              [Event.OperationWait op project "Creating Snapshot"]) project
            (d.Get "name").string = .ok s →
          ∃ rest,
            (resourceComputeSnapshotCreate config d t).trace =
                t ++ [Event.CreateSnapshot project (d.Get "zone").string
                  (d.Get "source_disk").string (buildSnapshot d)] ++
                  [Event.OperationWait op project "Creating Snapshot"] ++
                  [Event.Get project (d.Get "name").string,
                    Event.SetLabels project (d.Get "name").string
                      ⟨expandLabels d, s.LabelFingerprint⟩] ++ rest ∧
              rest.countP Event.isSetLabels = 0) ∧
        (∀ e, config.SnapshotsGet
            (t ++ [Event.CreateSnapshot project (d.Get "zone").string
              (d.Get "source_disk").string (buildSnapshot d)] ++
              [Event.OperationWait op project "Creating Snapshot"]) project
            (d.Get "name").string = .error e →
          (resourceComputeSnapshotCreate config d t).err =
              some (Errorf "Eror when reading snapshot for label update: " e) ∧
            (resourceComputeSnapshotCreate config d t).trace =
              t ++ [Event.CreateSnapshot project (d.Get "zone").string
                (d.Get "source_disk").string (buildSnapshot d)] ++
                [Event.OperationWait op project "Creating Snapshot"] ++
                [Event.Get project (d.Get "name").string])) ∧
      (expandLabels d = [] →
        resourceComputeSnapshotCreate config d t =
            resourceComputeSnapshotRead config (d.SetId (d.Get "name").string)
              (t ++ [Event.CreateSnapshot project (d.Get "zone").string
                (d.Get "source_disk").string (buildSnapshot d)] ++
                [Event.OperationWait op project "Creating Snapshot"]) ∧
          ∃ rest,
            (resourceComputeSnapshotCreate config d t).trace =
                t ++ [Event.CreateSnapshot project (d.Get "zone").string
                  (d.Get "source_disk").string (buildSnapshot d)] ++
                  [Event.OperationWait op project "Creating Snapshot"] ++ rest ∧
              rest.countP Event.isSetLabels = 0 ∧ rest.length ≤ 1) := by
  rw [create_accepted config d t project op hp hc]
  simp only [hw, buildSnapshot_name]
  refine ⟨?_, ?_⟩
  · intro hne
    have hl : (expandLabels d).length > 0 := List.length_pos.mpr hne
    rw [if_pos hl]
    refine ⟨?_, ?_⟩
    · intro s hg
      simp only [hg]
      obtain ⟨rest, hrest, hcount, _⟩ :=
        updateLabels_trace config project (d.Get "name").string (expandLabels d)
          s.LabelFingerprint
          (t ++ [Event.CreateSnapshot project (d.Get "zone").string
            (d.Get "source_disk").string (buildSnapshot d)] ++
            [Event.OperationWait op project "Creating Snapshot"] ++
            [Event.Get project (d.Get "name").string])
      rcases hu : updateLabels config project (d.Get "name").string (expandLabels d)
          s.LabelFingerprint
          (t ++ [Event.CreateSnapshot project (d.Get "zone").string
            (d.Get "source_disk").string (buildSnapshot d)] ++
            [Event.OperationWait op project "Creating Snapshot"] ++
            [Event.Get project (d.Get "name").string]) with ⟨_ | err, t4⟩
      · rw [hu] at hrest
        simp only at hrest
        rcases read_trace config (d.SetId (d.Get "name").string) t4 with h | ⟨p, h⟩
        · refine ⟨rest, ?_, hcount⟩
          rw [h, hrest]
          simp
        · refine ⟨rest ++ [Event.Get p (d.SetId (d.Get "name").string).Id], ?_, ?_⟩
          · rw [h, hrest]
            simp
          · simp [List.countP_append, hcount, Event.isSetLabels]
      · rw [hu] at hrest
        simp only at hrest
        refine ⟨rest, ?_, hcount⟩
        simp only [hrest]
        simp
    · intro e hg
      simp only [hg]
      trivial
  · intro hnil
    have hl : ¬ (expandLabels d).length > 0 := by simp [hnil]
    rw [if_neg hl]
    refine ⟨rfl, ?_⟩
    rcases read_trace config (d.SetId (d.Get "name").string)
        (t ++ [Event.CreateSnapshot project (d.Get "zone").string
          (d.Get "source_disk").string (buildSnapshot d)] ++
          [Event.OperationWait op project "Creating Snapshot"]) with h | ⟨p, h⟩
    · exact ⟨[], by rw [h]; simp⟩
    · exact ⟨[Event.Get p (d.SetId (d.Get "name").string).Id],
        by rw [h]; simp [Event.isSetLabels]⟩

end ComputeSnapshot

/-! ## Theorems: update -/

namespace ComputeSnapshot

/-- The update once the project is known: partial mode is entered, then the label
step and the closing read follow. -/
theorem update_with_project (config : Config) (d : ResourceData) (t : List Event)
    (project : String)
    (hp : config.getProject d = .ok project) :
    resourceComputeSnapshotUpdate config d t =
      if d.HasChange "labels" = true then
        match updateLabels config project d.Id (expandLabels d)
            (d.Get "label_fingerprint").string (t ++ [Event.Partial true]) with
        | (some err, t2) => ⟨some err, d, t2⟩
        | (none, t2) =>
          resourceComputeSnapshotRead config d
            (t2 ++ [Event.SetPartial "labels"] ++ [Event.Partial false])
      else
        resourceComputeSnapshotRead config d
          (t ++ [Event.Partial true] ++ [Event.Partial false]) := by
  simp only [resourceComputeSnapshotUpdate, hp]

/-- C6 as stated fails: the labels have changed, but the project lookup fails and the
update returns without sending any `SetLabels` request. -/
theorem update_without_project_sends_nothing :
    existingData.HasChange "labels" = true ∧
      (resourceComputeSnapshotUpdate noProjectConfig existingData []).err =
        some (.errorString "project: required field is not set") ∧
      (resourceComputeSnapshotUpdate noProjectConfig existingData []).trace = [] :=
  ⟨rfl, rfl, rfl⟩

/-- C6 amended: when the project lookup succeeds, the update enters partial mode and
then: if `labels` has not changed it leaves partial mode and reads, sending no
`SetLabels` request and marking nothing; if `labels` has changed it sends one
`SetLabels` request with the configured labels and the local `label_fingerprint`;
when that request or the wait on its operation fails, the update returns that error
with the resource data untouched and nothing after the failed step (no mark on
`labels`, no leaving of partial mode, no read); when both succeed, `labels` is
marked, partial mode is left, and the read follows. -/
theorem update_commits_labels (config : Config) (d : ResourceData) (t : List Event)
    (project : String)
    (hp : config.getProject d = .ok project) :
    (d.HasChange "labels" = false →
        resourceComputeSnapshotUpdate config d t =
            resourceComputeSnapshotRead config d
              (t ++ [Event.Partial true] ++ [Event.Partial false]) ∧
          ∃ rest,
            (resourceComputeSnapshotUpdate config d t).trace =
                t ++ [Event.Partial true, Event.Partial false] ++ rest ∧
              rest.countP Event.isSetLabels = 0 ∧ (∀ key, Event.SetPartial key ∉ rest)) ∧
      (d.HasChange "labels" = true →
        (∀ e, config.SnapshotsSetLabels (t ++ [Event.Partial true]) project d.Id
              ⟨expandLabels d, (d.Get "label_fingerprint").string⟩ = .error e →
            resourceComputeSnapshotUpdate config d t =
              ⟨some e, d,
                t ++ [Event.Partial true,
                  Event.SetLabels project d.Id
                    ⟨expandLabels d, (d.Get "label_fingerprint").string⟩]⟩) ∧
          (∀ op e, config.SnapshotsSetLabels (t ++ [Event.Partial true]) project d.Id
              ⟨expandLabels d, (d.Get "label_fingerprint").string⟩ = .ok op →
            config.computeOperationWait
              (t ++ [Event.Partial true] ++
                [Event.SetLabels project d.Id
                  ⟨expandLabels d, (d.Get "label_fingerprint").string⟩]) op project
              "Setting labels on snapshot" = some e →
            resourceComputeSnapshotUpdate config d t =
              ⟨some e, d,
                t ++ [Event.Partial true,
                  Event.SetLabels project d.Id
                    ⟨expandLabels d, (d.Get "label_fingerprint").string⟩,
                  Event.OperationWait op project "Setting labels on snapshot"]⟩) ∧
          (∀ op, config.SnapshotsSetLabels (t ++ [Event.Partial true]) project d.Id
              ⟨expandLabels d, (d.Get "label_fingerprint").string⟩ = .ok op →
            config.computeOperationWait
              (t ++ [Event.Partial true] ++
                [Event.SetLabels project d.Id
                  ⟨expandLabels d, (d.Get "label_fingerprint").string⟩]) op project
              "Setting labels on snapshot" = none →
            resourceComputeSnapshotUpdate config d t =
                resourceComputeSnapshotRead config d
                  (t ++ [Event.Partial true,
                    Event.SetLabels project d.Id
                      ⟨expandLabels d, (d.Get "label_fingerprint").string⟩,
                    Event.OperationWait op project "Setting labels on snapshot",
                    Event.SetPartial "labels", Event.Partial false]) ∧
              ∃ rest,
                (resourceComputeSnapshotUpdate config d t).trace =
                    t ++ [Event.Partial true,
                      Event.SetLabels project d.Id
                        ⟨expandLabels d, (d.Get "label_fingerprint").string⟩,
                      Event.OperationWait op project "Setting labels on snapshot",
                      Event.SetPartial "labels", Event.Partial false] ++ rest ∧
                  rest.countP Event.isSetLabels = 0 ∧ rest.length ≤ 1)) := by
  rw [update_with_project config d t project hp]
  refine ⟨?_, ?_⟩
  · intro hch
    simp only [hch, Bool.false_eq_true, if_false]
    refine ⟨trivial, ?_⟩
    rcases read_trace config d (t ++ [Event.Partial true] ++ [Event.Partial false])
      with h | ⟨p, h⟩
    · exact ⟨[], by rw [h]; simp⟩
    · exact ⟨[Event.Get p d.Id], by rw [h]; simp [Event.isSetLabels]⟩
  · intro hch
    simp only [hch, if_true]
    refine ⟨?_, ?_, ?_⟩
    · intro e hs
      simp [updateLabels, hs]
    · intro op e hs hw
      simp only [updateLabels, hs, hw]
      simp
    · intro op hs hw
      have hu : updateLabels config project d.Id (expandLabels d)
          (d.Get "label_fingerprint").string (t ++ [Event.Partial true]) =
          (none, t ++ [Event.Partial true] ++
            [Event.SetLabels project d.Id
              ⟨expandLabels d, (d.Get "label_fingerprint").string⟩] ++
            [Event.OperationWait op project "Setting labels on snapshot"]) := by
        simp only [updateLabels, hs, hw]
      rw [hu]
      have hl : t ++ [Event.Partial true] ++
            [Event.SetLabels project d.Id
              ⟨expandLabels d, (d.Get "label_fingerprint").string⟩] ++
            [Event.OperationWait op project "Setting labels on snapshot"] ++
            [Event.SetPartial "labels"] ++ [Event.Partial false] =
          t ++ [Event.Partial true,
            Event.SetLabels project d.Id
              ⟨expandLabels d, (d.Get "label_fingerprint").string⟩,
            Event.OperationWait op project "Setting labels on snapshot",
            Event.SetPartial "labels", Event.Partial false] := by
        simp
      simp only [hl]
      refine ⟨trivial, ?_⟩
      rcases read_trace config d
          (t ++ [Event.Partial true,
            Event.SetLabels project d.Id
              ⟨expandLabels d, (d.Get "label_fingerprint").string⟩,
            Event.OperationWait op project "Setting labels on snapshot",
            Event.SetPartial "labels", Event.Partial false]) with h | ⟨p, h⟩
      · exact ⟨[], by rw [h]; simp⟩
      · exact ⟨[Event.Get p d.Id], by rw [h]; simp [Event.isSetLabels]⟩

end ComputeSnapshot

namespace ComputeSnapshot

/-- Witness for C5 amended on the healthy service: one label, and the request
carries the fingerprint of the snapshot read after the wait. -/
theorem create_label_step_witness :
    healthyConfig.getProject newLabelledData = .ok "proj" ∧
      expandLabels newLabelledData ≠ [] ∧
      ∃ rest,
        (resourceComputeSnapshotCreate healthyConfig newLabelledData []).trace =
            [] ++ [Event.CreateSnapshot "proj" (newLabelledData.Get "zone").string
              (newLabelledData.Get "source_disk").string (buildSnapshot newLabelledData)] ++
              [Event.OperationWait ⟨"op-create"⟩ "proj" "Creating Snapshot"] ++
              [Event.Get "proj" (newLabelledData.Get "name").string,
                Event.SetLabels "proj" (newLabelledData.Get "name").string
                  ⟨expandLabels newLabelledData, remoteSnapshot.LabelFingerprint⟩] ++ rest ∧
          rest.countP Event.isSetLabels = 0 :=
  ⟨rfl, by decide,
    ((create_label_step healthyConfig newLabelledData [] "proj" ⟨"op-create"⟩ rfl rfl rfl).1
      (by decide)).1 remoteSnapshot rfl⟩

/-- Witness for C6 amended on the healthy service: the labels have changed, the
request and the wait succeed, and `labels` is marked before partial mode is left. -/
theorem update_commits_labels_witness :
    healthyConfig.getProject existingData = .ok "proj" ∧
      existingData.HasChange "labels" = true ∧
      ∃ rest,
        (resourceComputeSnapshotUpdate healthyConfig existingData []).trace =
            [] ++ [Event.Partial true,
              Event.SetLabels "proj" existingData.Id
                ⟨expandLabels existingData, (existingData.Get "label_fingerprint").string⟩,
              Event.OperationWait ⟨"op-labels"⟩ "proj" "Setting labels on snapshot",
              Event.SetPartial "labels", Event.Partial false] ++ rest ∧
          rest.countP Event.isSetLabels = 0 ∧ rest.length ≤ 1 :=
  ⟨rfl, rfl,
    (((update_commits_labels healthyConfig existingData [] "proj" rfl).2 rfl).2.2
      ⟨"op-labels"⟩ rfl rfl).2⟩

/-- Every event the update adds that marks a key marks `labels`. -/
theorem update_trace (config : Config) (d : ResourceData) (t : List Event) :
    ∃ new,
      (resourceComputeSnapshotUpdate config d t).trace = t ++ new ∧
        ∀ key, Event.SetPartial key ∈ new → key = "labels" := by
  rcases hp : config.getProject d with err | project
  · exact ⟨[], by simp [resourceComputeSnapshotUpdate, hp]⟩
  · rw [update_with_project config d t project hp]
    by_cases hch : d.HasChange "labels" = true
    · rw [if_pos hch]
      obtain ⟨rest, hrest, _, hno⟩ :=
        updateLabels_trace config project d.Id (expandLabels d)
          (d.Get "label_fingerprint").string (t ++ [Event.Partial true])
      rcases hu : updateLabels config project d.Id (expandLabels d)
          (d.Get "label_fingerprint").string (t ++ [Event.Partial true]) with ⟨_ | err, t2⟩
      · rw [hu] at hrest
        simp only at hrest
        rcases read_trace config d (t2 ++ [Event.SetPartial "labels"] ++ [Event.Partial false])
          with h | ⟨p, h⟩
        · refine ⟨[Event.Partial true,
            Event.SetLabels project d.Id
              ⟨expandLabels d, (d.Get "label_fingerprint").string⟩] ++ rest ++
            [Event.SetPartial "labels", Event.Partial false], ?_, ?_⟩
          · rw [h, hrest]
            simp
          · intro key hk
            have := hno key
            simp_all
        · refine ⟨[Event.Partial true,
            Event.SetLabels project d.Id
              ⟨expandLabels d, (d.Get "label_fingerprint").string⟩] ++ rest ++
            [Event.SetPartial "labels", Event.Partial false, Event.Get p d.Id], ?_, ?_⟩
          · rw [h, hrest]
            simp
          · intro key hk
            have := hno key
            simp_all
      · rw [hu] at hrest
        simp only at hrest
        refine ⟨[Event.Partial true,
          Event.SetLabels project d.Id
            ⟨expandLabels d, (d.Get "label_fingerprint").string⟩] ++ rest, ?_, ?_⟩
        · rw [hrest]
          simp
        · intro key hk
          have := hno key
          simp_all
    · rw [if_neg hch]
      rcases read_trace config d (t ++ [Event.Partial true] ++ [Event.Partial false])
        with h | ⟨p, h⟩
      · exact ⟨[Event.Partial true, Event.Partial false], by rw [h]; simp⟩
      · exact ⟨[Event.Partial true, Event.Partial false, Event.Get p d.Id],
          by rw [h]; simp⟩

/-- C10: the schema table has exactly the twelve keys of the source, all distinct.
The fields a user can set (Required or Optional) are `name`, `zone`, the two raw
encryption keys, `source_disk`, `project` and `labels`, and every one of them other
than `labels` is ForceNew; the Computed fields are the two sha256 fields,
`source_disk_link`, `self_link` and `label_fingerprint`, and none of them is
Required, Optional or ForceNew; the Sensitive fields are exactly
`snapshot_encryption_key_raw` and `source_disk_encryption_key_raw`, both in the
table; `labels` is in the table and is the only settable field that is not
ForceNew; and `labels` is the only key the update ever marks as committed. -/
theorem only_labels_updates_in_place :
    resourceComputeSnapshot.map Prod.fst =
        ["name", "zone", "snapshot_encryption_key_raw", "snapshot_encryption_key_sha256",
          "source_disk_encryption_key_raw", "source_disk_encryption_key_sha256",
          "source_disk", "source_disk_link", "project", "self_link", "labels",
          "label_fingerprint"] ∧
      (resourceComputeSnapshot.map Prod.fst).Nodup ∧
      (resourceComputeSnapshot.filter (fun p => p.2.Required || p.2.Optional)).map Prod.fst =
        ["name", "zone", "snapshot_encryption_key_raw", "source_disk_encryption_key_raw",
          "source_disk", "project", "labels"] ∧
      (resourceComputeSnapshot.filter
          (fun p => (p.2.Required || p.2.Optional) && p.2.ForceNew)).map Prod.fst =
        ["name", "zone", "snapshot_encryption_key_raw", "source_disk_encryption_key_raw",
          "source_disk", "project"] ∧
      (resourceComputeSnapshot.filter (fun p => p.2.Computed)).map Prod.fst =
        ["snapshot_encryption_key_sha256", "source_disk_encryption_key_sha256",
          "source_disk_link", "self_link", "label_fingerprint"] ∧
      (resourceComputeSnapshot.filter (fun p => p.2.Sensitive)).map Prod.fst =
        ["snapshot_encryption_key_raw", "source_disk_encryption_key_raw"] ∧
      (resourceComputeSnapshot.filter
          (fun p => (p.2.Required || p.2.Optional) && !p.2.ForceNew)).map Prod.fst =
        ["labels"] ∧
      (∀ p ∈ resourceComputeSnapshot,
        (p.2.Required = true ∨ p.2.Optional = true) → p.1 ≠ "labels" →
          p.2.ForceNew = true) ∧
      (∀ p ∈ resourceComputeSnapshot,
        p.2.Computed = true →
          p.2.Required = false ∧ p.2.Optional = false ∧ p.2.ForceNew = false) ∧
      (∀ p ∈ resourceComputeSnapshot,
        p.2.Sensitive = true ↔
          p.1 ∈ ["snapshot_encryption_key_raw", "source_disk_encryption_key_raw"]) ∧
      (∀ p ∈ resourceComputeSnapshot,
        ((p.2.Required = true ∨ p.2.Optional = true) ∧ p.2.ForceNew = false) ↔
          p.1 = "labels") ∧
      (∀ (config : Config) (d : ResourceData) (t : List Event) (key : String),
        Event.SetPartial key ∈ (resourceComputeSnapshotUpdate config d t).trace.drop t.length →
          key = "labels") := by
  refine ⟨by decide, by decide, by decide, by decide, by decide, by decide, by decide,
    by decide, by decide, by decide, by decide, ?_⟩
  intro config d t key hk
  obtain ⟨new, hnew, hkey⟩ := update_trace config d t
  rw [hnew, List.drop_left] at hk
  exact hkey key hk

end ComputeSnapshot

/-! ## Theorems: the destroy check -/

namespace KubernetesRoleBinding

open ComputeSnapshot (GoError)

/-- Whatever `idParts` and the cluster are: a role binding that can still be fetched
passes the check as soon as the name of the fetched object differs from the
identifier of the resource. -/
theorem destroy_check_compares_name_with_id
    (idParts : String → Except GoError (String × String))
    (get : String → String → Except GoError RoleBinding)
    (rs : ResourceState) (ns name : String) (resp : RoleBinding)
    (hid : idParts rs.ID = .ok (ns, name))
    (hget : get ns name = .ok resp)
    (hne : resp.Name ≠ rs.ID) :
    testAccCheckKubernetesRoleBindingDestroy idParts get [rs] = none := by
  by_cases ht : rs.type = "kubernetes_role_binding" <;>
    simp [testAccCheckKubernetesRoleBindingDestroy, ht, hid, hget, hne]

/-- C8, the code at the failing input: the role binding `default/tf-acc-test` of the
state can still be fetched from the cluster, and the destroy check returns nil. -/
theorem destroy_check_misses_remaining_binding :
    sampleIdParts "default/tf-acc-test" = .ok ("default", "tf-acc-test") ∧
      sampleCluster "default" "tf-acc-test" = .ok ⟨"tf-acc-test"⟩ ∧
      testAccCheckKubernetesRoleBindingDestroy sampleIdParts sampleCluster sampleState =
        none :=
  ⟨rfl, rfl, by decide⟩

end KubernetesRoleBinding
